import Mathlib

/-!
Shallow embedding of `master/buildbot/status/status_gerrit.py`
(class `GerritStatusPush` and the module-level `defaultMessageCB`).

Python strings are modelled as `List Char`; `str.split(sep)` is `pySplit`;
exceptions raised by the Python code are modelled with `Except PyErr` /
an `Option PyErr` field in the result of `buildFinished`.
-/

namespace StatusGerrit

/-- A Python string, as a list of characters. -/
abbrev PyStr := List Char

/-- The Python exceptions the embedded code can raise:
`ValueError` from tuple unpacking of a too-short list
(`project, patch = download.split(" ")[:2]`), and `TypeError` from
subscripting a bound method (`command.extend["--verified", str(verified)]`,
which subscripts `list.extend` instead of calling it). -/
inductive PyErr where
  | valueError
  | typeError
deriving DecidableEq, Repr

/-- Python's `s.split(sep)` for a one-character separator `sep`: splits at
every occurrence of `sep`, keeping empty fields (so `"a  b".split(" ")`
is `["a", "", "b"]` and `"".split(" ")` is `[""]`). -/
def pySplit (sep : Char) : List Char → List (List Char)
  | [] => [[]]
  | c :: rest =>
    if c = sep then [] :: pySplit sep rest
    else
      match pySplit sep rest with
      | [] => [[c]]
      | w :: ws => (c :: w) :: ws

/-- Python's `str(n)` for a nonnegative int. -/
def pyStrOfNat (n : Nat) : PyStr := (Nat.repr n).toList

/-- The constructor parameters of `GerritStatusPush` that `buildFinished`
reads: `self.username`, `self.gerritserver`, `self.gerritport`. -/
structure GerritConfig where
  username : PyStr
  gerritserver : PyStr
  gerritport : Nat
deriving DecidableEq, Repr

/-- Lines 88-89 of `buildFinished` for one token of the downloads list:
`project, patch = download.split(" ")[:2]` (a `ValueError` when the split
yields fewer than two fields) followed by `changeid = patch.split("/")[0]`.
Returns `(project, changeid)`. -/
def parseChangeRef (download : PyStr) : Except PyErr (PyStr × PyStr) :=
  match (pySplit ' ' download).take 2 with
  | [project, patch] => Except.ok (project, (pySplit '/' patch).headD [])
  | _ => Except.error PyErr.valueError

/-- The single argument `"--message '%s'" % message` appended to the
command when the message is non-empty. -/
def messageArg (message : PyStr) : PyStr :=
  ("--message '").toList ++ message ++ ("'").toList

/-- Lines 90-98: building the `ssh ... gerrit review ...` argument list for
one change. When `verified` (resp. `reviewed`) is truthy the source runs
`command.extend["--verified", str(verified)]`
(resp. `command.extend["--code-review", str(reviewed)]`), which subscripts
the bound method `list.extend` and raises `TypeError`. -/
def gerritCommand (cfg : GerritConfig) (message : PyStr) (verified reviewed : Int)
    (project changeid : PyStr) : Except PyErr (List PyStr) :=
  let command : List PyStr :=
    [("ssh").toList, cfg.username ++ '@' :: cfg.gerritserver,
     ("-p").toList, pyStrOfNat cfg.gerritport,
     ("gerrit").toList, ("review").toList, ("--project").toList, project]
  let command := if message = [] then command else command ++ [messageArg message]
  if verified ≠ 0 then Except.error PyErr.typeError
  else if reviewed ≠ 0 then Except.error PyErr.typeError
  else Except.ok (command ++ [changeid])

/-- One iteration of the `for download in downloads` loop: parse the token,
then build the command handed to `reactor.spawnProcess`. -/
def processDownload (cfg : GerritConfig) (message : PyStr) (verified reviewed : Int)
    (download : PyStr) : Except PyErr (List PyStr) :=
  match parseChangeRef download with
  | Except.error e => Except.error e
  | Except.ok pc => gerritCommand cfg message verified reviewed pc.1 pc.2

/-- The whole loop body. There is no `try/except` around the loop, so the
first raised exception aborts it; the commands of earlier iterations have
already been spawned. Returns the spawned commands and the escaping
exception, if any. -/
def runDownloads (cfg : GerritConfig) (message : PyStr) (verified reviewed : Int) :
    List PyStr → List (List PyStr) × Option PyErr
  | [] => ([], none)
  | d :: ds =>
    match processDownload cfg message verified reviewed d with
    | Except.error e => ([], some e)
    | Except.ok cmd =>
      let rest := runDownloads cfg message verified reviewed ds
      (cmd :: rest.1, rest.2)

/-- The observable outcome of one `buildFinished` call: the argument lists
handed to `reactor.spawnProcess`, how many times `self.messageCB` was
called, and the exception escaping `buildFinished` (if any). -/
structure BuildFinishedResult where
  commands : List (List PyStr)
  policyCalls : Nat
  err : Option PyErr
deriving DecidableEq, Repr

/-- `GerritStatusPush.buildFinished`. The downloads property is
`none` when `build.getProperty("downloads")` raises `KeyError`
(caught: immediate return), `some none` when the stored value is `None`
(immediate return), and `some (some ds)` otherwise. The policy result
`(message, verified, reviewed)` stands for the value
`self.messageCB(builderName, build, results)`, computed once before
the loop. -/
def buildFinished (cfg : GerritConfig) (downloads : Option (Option (List PyStr)))
    (policy : PyStr × Int × Int) : BuildFinishedResult :=
  match downloads with
  | none => ⟨[], 0, none⟩
  | some none => ⟨[], 0, none⟩
  | some (some ds) =>
    let r := runDownloads cfg policy.1 policy.2.1 policy.2.2 ds
    ⟨r.1, 1, r.2⟩

/-- Module-level `defaultMessageCB(buildername, build, results)`:
the hostname is `os.uname()[1]`, `buildNumber` is `build.getNumber()`, and
`results` stands for the `%s`-formatting of the results value. Returns
`(message, 0, 0)`. -/
def defaultMessageCB (hostname buildername : PyStr) (buildNumber : Nat)
    (results : PyStr) : PyStr × Int × Int :=
  (("buildbot finished compiling your patchset\n").toList ++
   ("on configuration ").toList ++ buildername ++ (" ").toList ++
   ("the result is ").toList ++ results ++ ("\n").toList ++
   ("more details: http://").toList ++ hostname ++
   (":8010/builders/").toList ++ buildername ++ ("/builds/").toList ++
   pyStrOfNat buildNumber ++ ("\n").toList,
   0, 0)

/-- What `LocalPP.processEnded` prints. -/
inductive GerritLog where
  | okLog
  | errorLog
deriving DecidableEq, Repr

/-- Python truthiness of `status_object.value.exitCode`: the exit code is
`None` (falsy) when the child was killed by a signal, otherwise the int
exit code (truthy iff non-zero). -/
def pyTruthy : Option Int → Bool
  | none => false
  | some n => n != 0

/-- `LocalPP.processEnded`: `if status_object.value.exitCode:` print the
error line, `else` print the OK line. It only prints; nothing is raised
back to the event pipeline. -/
def processEnded (exitCode : Option Int) : GerritLog :=
  if pyTruthy exitCode then GerritLog.errorLog else GerritLog.okLog

/-- Modelled from the spec: the remote endpoint's shell tokenization of the
text that the ssh client hands it (external to this repository). A minimal
POSIX field splitter in which only blanks and single quotes are
significant: blanks separate words, a single-quoted span is literal text,
and `none` is an unterminated quote. Used to state whether the message
embedded by `messageArg` can be read back as extra shell tokens. -/
def shTokens (inQ started : Bool) (cur : List Char) : List Char → Option (List (List Char))
  | [] =>
    if inQ then none
    else if started then some [cur.reverse] else some []
  | c :: cs =>
    if inQ then
      if c = '\'' then shTokens false true cur cs
      else shTokens true started (c :: cur) cs
    else if c = '\'' then shTokens true true cur cs
    else if c = ' ' then
      if started then (shTokens false false [] cs).map (fun ts => cur.reverse :: ts)
      else shTokens false false [] cs
    else shTokens false true (c :: cur) cs

/-- Shell tokenization of a full word list, starting outside any quote. -/
def shellSplit (s : List Char) : Option (List (List Char)) :=
  shTokens false false [] s

/-- The concrete configuration of the spec's scenarios:
`user@host`, port 29418. -/
def cfg0 : GerritConfig :=
  ⟨("user").toList, ("host").toList, 29418⟩

/-! ### Lemmas about `pySplit` -/

theorem pySplit_ne_nil (sep : Char) (s : List Char) : pySplit sep s ≠ [] := by
  induction s with
  | nil => simp [pySplit]
  | cons c rest ih =>
    simp only [pySplit]
    split
    · simp
    · split <;> simp

theorem pySplit_headD (sep : Char) (s : List Char) :
    (pySplit sep s).head?.getD [] = s.takeWhile (fun c => c != sep) := by
  induction s with
  | nil => simp [pySplit]
  | cons c rest ih =>
    by_cases hc : c = sep
    · simp [pySplit, hc, List.takeWhile_cons]
    · cases hw : pySplit sep rest with
      | nil => exact absurd hw (pySplit_ne_nil sep rest)
      | cons w ws =>
        have hwd : w = rest.takeWhile (fun c => c != sep) := by
          simpa [hw] using ih
        simp [pySplit, hc, hw, List.takeWhile_cons, hwd]

theorem pySplit_no_sep (sep : Char) (a : List Char) (h : sep ∉ a) :
    pySplit sep a = [a] := by
  induction a with
  | nil => simp [pySplit]
  | cons c rest ih =>
    have hc : ¬ c = sep := fun hcc => h (hcc ▸ List.mem_cons_self c rest)
    have hr : sep ∉ rest := fun hm => h (List.mem_cons_of_mem c hm)
    simp [pySplit, hc, ih hr]

theorem pySplit_append_sep (sep : Char) (a b : List Char) (h : sep ∉ a) :
    pySplit sep (a ++ sep :: b) = a :: pySplit sep b := by
  induction a with
  | nil => simp [pySplit]
  | cons c rest ih =>
    have hc : ¬ c = sep := fun hcc => h (hcc ▸ List.mem_cons_self c rest)
    have hr : sep ∉ rest := fun hm => h (List.mem_cons_of_mem c hm)
    simp [pySplit, hc, ih hr]

/-! ### Lemmas about `shTokens` -/

theorem shTokens_quoted (m : List Char) (h : '\'' ∉ m) :
    ∀ (st : Bool) (cur cs : List Char),
      shTokens true st cur (m ++ cs) = shTokens true st (m.reverse ++ cur) cs := by
  induction m with
  | nil => intro st cur cs; simp
  | cons c rest ih =>
    intro st cur cs
    have hc : ¬ c = '\'' := fun hcc => h (hcc ▸ List.mem_cons_self c rest)
    have hr : '\'' ∉ rest := fun hm => h (List.mem_cons_of_mem c hm)
    simp [shTokens, hc, ih hr st (c :: cur) cs, List.reverse_cons, List.append_assoc]

/-! ### Claim theorems -/

/-- C1: on scenario A (downloads `["projA 12345/3"]`, policy message "OK",
verified 1, reviewed 0) the code does not issue the claimed review command:
`command.extend["--verified", str(verified)]` subscripts the bound method
`list.extend` instead of calling it, so `buildFinished` raises `TypeError`
and zero commands are spawned. -/
theorem buildFinished_scenarioA_raises_typeError :
    buildFinished cfg0 (some (some [("projA 12345/3").toList])) (("OK").toList, 1, 0) =
      ⟨[], 1, some PyErr.typeError⟩ := by
  rfl

/-- C2 counterexample: with downloads
`["projB 1/2", "projA", "projC 7/1"]` the `ValueError` raised while
parsing the middle token (it has no second space-separated field) escapes
`buildFinished` and no command is issued for the well-formed token after
it; only the command for the token before it was already spawned — the
exception is neither caught nor confined to its own token. -/
theorem buildFinished_malformed_token_aborts :
    buildFinished cfg0
        (some (some [("projB 1/2").toList, ("projA").toList, ("projC 7/1").toList]))
        (("OK").toList, 0, 0) =
      ⟨[[("ssh").toList, ("user@host").toList, ("-p").toList, ("29418").toList,
         ("gerrit").toList, ("review").toList, ("--project").toList, ("projB").toList,
         ("--message 'OK'").toList, ("1").toList]], 1, some PyErr.valueError⟩ ∧
    (buildFinished cfg0
        (some (some [("projB 1/2").toList, ("projA").toList, ("projC 7/1").toList]))
        (("OK").toList, 0, 0)).err ≠ none := by
  have h0 : buildFinished cfg0
      (some (some [("projB 1/2").toList, ("projA").toList, ("projC 7/1").toList]))
      (("OK").toList, 0, 0) =
      ⟨[[("ssh").toList, ("user@host").toList, ("-p").toList, ("29418").toList,
         ("gerrit").toList, ("review").toList, ("--project").toList, ("projB").toList,
         ("--message 'OK'").toList, ("1").toList]], 1, some PyErr.valueError⟩ := rfl
  refine ⟨h0, ?_⟩
  rw [h0]
  simp

/-- C2 amended: there is no try/except around the per-token loop, so an
exception raised while parsing or building the command for any one token —
at any position of the downloads list — propagates out of `buildFinished`
and aborts the processing of all remaining tokens of the same build; only
the commands of the tokens before it have already been spawned. -/
theorem buildFinished_token_error_propagates (cfg : GerritConfig)
    (policy : PyStr × Int × Int) (pre : List PyStr) (cmds : List (List PyStr))
    (d : PyStr) (ds : List PyStr) (e : PyErr)
    (hpre : List.Forall₂
      (fun t c => processDownload cfg policy.1 policy.2.1 policy.2.2 t = Except.ok c)
      pre cmds)
    (hd : processDownload cfg policy.1 policy.2.1 policy.2.2 d = Except.error e) :
    buildFinished cfg (some (some (pre ++ d :: ds))) policy = ⟨cmds, 1, some e⟩ := by
  have hrun : runDownloads cfg policy.1 policy.2.1 policy.2.2 (pre ++ d :: ds) =
      (cmds, some e) := by
    induction hpre with
    | nil => simp [runDownloads, hd]
    | cons ht htail ih => simp [runDownloads, ht, ih]
  simp [buildFinished, hrun]

/-- C2 amended, witness: the middle token "projA" raises `ValueError`,
which escapes `buildFinished`; the earlier token "projB 1/2" had already
been spawned, and the push for the later token "projC 7/1" is
suppressed. -/
theorem buildFinished_token_error_propagates_witness :
    buildFinished cfg0
        (some (some [("projB 1/2").toList, ("projA").toList, ("projC 7/1").toList]))
        (("OK").toList, 0, 0) =
      ⟨[[("ssh").toList, ("user@host").toList, ("-p").toList, ("29418").toList,
         ("gerrit").toList, ("review").toList, ("--project").toList, ("projB").toList,
         ("--message 'OK'").toList, ("1").toList]], 1, some PyErr.valueError⟩ :=
  buildFinished_token_error_propagates cfg0 (("OK").toList, 0, 0)
    [("projB 1/2").toList]
    [[("ssh").toList, ("user@host").toList, ("-p").toList, ("29418").toList,
      ("gerrit").toList, ("review").toList, ("--project").toList, ("projB").toList,
      ("--message 'OK'").toList, ("1").toList]]
    (("projA").toList) [("projC 7/1").toList] PyErr.valueError
    (List.Forall₂.cons rfl List.Forall₂.nil) rfl

/-- C3: the omission side of the claim holds (message and score flags are
absent when the message is empty and the scores are 0), but whenever a
score is non-zero — of either sign — the code raises `TypeError` at
`command.extend[...]` instead of including the flag with its value. -/
theorem gerritCommand_nonzero_score_raises_typeError :
    gerritCommand cfg0 (("OK").toList) 1 0 (("projA").toList) (("12345").toList) =
      Except.error PyErr.typeError ∧
    gerritCommand cfg0 (("OK").toList) (-1) 0 (("projA").toList) (("12345").toList) =
      Except.error PyErr.typeError ∧
    gerritCommand cfg0 (("OK").toList) 0 1 (("projA").toList) (("12345").toList) =
      Except.error PyErr.typeError ∧
    gerritCommand cfg0 (("OK").toList) 0 (-1) (("projA").toList) (("12345").toList) =
      Except.error PyErr.typeError ∧
    gerritCommand cfg0 [] 0 0 (("projA").toList) (("12345").toList) =
      Except.ok [("ssh").toList, ("user@host").toList, ("-p").toList, ("29418").toList,
        ("gerrit").toList, ("review").toList, ("--project").toList, ("projA").toList,
        ("12345").toList] := by
  refine ⟨by rfl, by rfl, by rfl, by rfl, by rfl⟩

/-- C4 counterexample: a child killed by a signal terminates abnormally with
`status_object.value.exitCode` equal to `None`, which is falsy, so
`processEnded` prints the OK line — abnormal termination is logged as
success, not as an error. -/
theorem processEnded_signal_kill_logged_ok :
    processEnded none = GerritLog.okLog ∧ GerritLog.okLog ≠ GerritLog.errorLog := by
  decide

/-- C4 amended: `processEnded` logs an error exactly when the child exited
with a non-zero exit code; exit code 0 and abnormal termination without an
exit code (signal kill, `exitCode = None`) are both logged as success. The
handler only prints; no termination status is raised back to the
build-event pipeline. -/
theorem processEnded_error_iff_nonzero_exit :
    ∀ ec : Option Int,
      processEnded ec = GerritLog.errorLog ↔ ∃ n : Int, ec = some n ∧ n ≠ 0 := by
  intro ec
  cases ec with
  | none => simp [processEnded, pyTruthy]
  | some n => by_cases hn : n = 0 <;> simp [processEnded, pyTruthy, hn]

/-- C5 counterexample: the message "x' 'y" is embedded as the single
argument `--message 'x' 'y'`; the remote shell reads it back as the three
tokens `--message`, `x`, `y` — the message content escapes the quoting and
is interpreted as additional shell tokens. -/
theorem messageArg_quote_injection :
    shellSplit (messageArg (("x' 'y").toList)) =
      some [("--message").toList, ("x").toList, ("y").toList] ∧
    shellSplit (messageArg (("x' 'y").toList)) ≠
      some [("--message").toList, ("x' 'y").toList] := by
  decide

/-- C5 amended: the message is wrapped in single quotes inside the one
argument `--message '<text>'` with no escaping, so the embedding is safe
(the remote shell reads back exactly `--message` and the message text)
precisely for messages that contain no single-quote character. -/
theorem messageArg_safe_no_quote (m : PyStr) (h : '\'' ∉ m) :
    shellSplit (messageArg m) = some [("--message").toList, m] := by
  have key : shTokens false false [] (("--message '").toList ++ (m ++ ("'").toList)) =
      (shTokens true true [] (m ++ ("'").toList)).map
        (fun ts => ("--message").toList :: ts) := rfl
  have harr : messageArg m = ("--message '").toList ++ (m ++ ("'").toList) := by
    simp [messageArg]
  rw [shellSplit, harr, key, shTokens_quoted m h true [] (("'").toList)]
  simp [shTokens]

/-- C5 amended, witness: the quote-free message "OK" reads back intact. -/
theorem messageArg_safe_no_quote_witness :
    shellSplit (messageArg (("OK").toList)) =
      some [("--message").toList, ("OK").toList] :=
  messageArg_safe_no_quote (("OK").toList) (by decide)

/-- C6 counterexample: on scenario B (downloads
`["projA 12345/3", "projB bad"]`, scores 0) two commands are issued, not
one — the token "projB bad" has two space-separated fields, so it parses
(change-id "bad") instead of being skipped. -/
theorem buildFinished_scenarioB_two_commands :
    (buildFinished cfg0 (some (some [("projA 12345/3").toList, ("projB bad").toList]))
        (("OK").toList, 0, 0)).commands.length = 2 ∧
    (buildFinished cfg0 (some (some [("projA 12345/3").toList, ("projB bad").toList]))
        (("OK").toList, 0, 0)).commands.length ≠ 1 := by
  decide

/-- C6 amended: both tokens of scenario B parse (each has at least two
space-separated fields), so `buildFinished` issues two commands: one for
projA with change-id 12345 and one for projB with change-id "bad"; no
token is skipped and no exception is raised. -/
theorem buildFinished_scenarioB_eval :
    buildFinished cfg0 (some (some [("projA 12345/3").toList, ("projB bad").toList]))
        (("OK").toList, 0, 0) =
      ⟨[[("ssh").toList, ("user@host").toList, ("-p").toList, ("29418").toList,
         ("gerrit").toList, ("review").toList, ("--project").toList, ("projA").toList,
         ("--message 'OK'").toList, ("12345").toList],
        [("ssh").toList, ("user@host").toList, ("-p").toList, ("29418").toList,
         ("gerrit").toList, ("review").toList, ("--project").toList, ("projB").toList,
         ("--message 'OK'").toList, ("bad").toList]], 1, none⟩ := by
  rfl

/-- C7: when the "downloads" property is absent (`getProperty` raises
`KeyError`, caught) or stored as `None`, `buildFinished` returns at once:
no command is built, the message policy is never invoked, and no exception
escapes — for every configuration and every policy result. -/
theorem buildFinished_no_downloads_noop (cfg : GerritConfig)
    (policy : PyStr × Int × Int) :
    buildFinished cfg none policy = ⟨[], 0, none⟩ ∧
    buildFinished cfg (some none) policy = ⟨[], 0, none⟩ :=
  ⟨rfl, rfl⟩

/-- C8 counterexample: in the token "proj\tchange/3" the fields are
separated by whitespace (a tab), yet `download.split(" ")` splits only on
the space character, yields a single field, and the tuple unpacking raises
`ValueError` — no `(proj, change)` reference is produced. -/
theorem parseChangeRef_tab_separator_valueError :
    parseChangeRef (("proj\tchange/3").toList) = Except.error PyErr.valueError ∧
    parseChangeRef (("proj\tchange/3").toList) ≠
      Except.ok (("proj").toList, ("change").toList) := by
  have h0 : parseChangeRef (("proj\tchange/3").toList) = Except.error PyErr.valueError := rfl
  refine ⟨h0, ?_⟩
  rw [h0]
  exact fun hcon => Except.noConfusion hcon

/-- C8 amended: for a token whose first two fields are separated by a
single space character (the code splits on `" "`, not on general
whitespace), with the rest of the token empty or starting with a further
space, parsing yields the first field as the project and, as the change-id,
the part of the second field before its first "/" (the whole second field
when it contains none). -/
theorem parseChangeRef_space_separated (proj f2 rest : PyStr)
    (h1 : ' ' ∉ proj) (h2 : ' ' ∉ f2)
    (h3 : rest = [] ∨ ∃ r, rest = ' ' :: r) :
    parseChangeRef (proj ++ ' ' :: (f2 ++ rest)) =
      Except.ok (proj, f2.takeWhile (fun c => c != '/')) := by
  rcases h3 with h3 | ⟨r, h3⟩
  · subst h3
    rw [parseChangeRef, List.append_nil, pySplit_append_sep ' ' proj f2 h1,
      pySplit_no_sep ' ' f2 h2]
    simp [pySplit_headD]
  · subst h3
    rw [parseChangeRef, pySplit_append_sep ' ' proj _ h1,
      pySplit_append_sep ' ' f2 r h2]
    simp [pySplit_headD]

/-- C8 amended, witness: "proj change/3" parses to project "proj" and
change-id "change". -/
theorem parseChangeRef_space_separated_witness :
    parseChangeRef (("proj change/3").toList) =
      Except.ok (("proj").toList, ("change").toList) :=
  parseChangeRef_space_separated (("proj").toList) (("change/3").toList) []
    (by decide) (by decide) (Or.inl rfl)

/-- C9: `defaultMessageCB` is a pure function of the local host name, the
builder name, the build sequence number and the result code — two calls on
identical inputs return the identical triple — and both of its scores
(verified, reviewed) are always 0. -/
theorem defaultMessageCB_deterministic_zero_scores (hostname buildername : PyStr)
    (n : Nat) (results : PyStr) :
    defaultMessageCB hostname buildername n results =
      defaultMessageCB hostname buildername n results ∧
    (defaultMessageCB hostname buildername n results).2 = (0, 0) :=
  ⟨rfl, rfl⟩

/-- C10: in the token "proj  12345/3" the two consecutive spaces make the
second field of `split(" ")` the empty string, so the change-id is the
empty string and a command is still issued whose final positional argument
is the empty string — the token is neither skipped nor reported. -/
theorem buildFinished_double_space_empty_changeid :
    buildFinished cfg0 (some (some [("proj  12345/3").toList])) (("OK").toList, 0, 0) =
      ⟨[[("ssh").toList, ("user@host").toList, ("-p").toList, ("29418").toList,
         ("gerrit").toList, ("review").toList, ("--project").toList, ("proj").toList,
         ("--message 'OK'").toList, []]], 1, none⟩ := by
  rfl

end StatusGerrit
